import Mathlib

/-!
Shallow embedding of the Shop API (`main.py`, `models.py`).

The service is a REST facade over an external table store.  We embed the
tables as Lean lists of rows and each handler's storage effect as a pure
function on those lists, following the source line by line:

* products rows carry `likes` as a string-encoded integer (`models.py`
  declares `likes: str` and the favorite toggle writes `str(new_likes)`),
  so the store's `order("likes", desc=True)` sorts the raw strings
  lexicographically;
* `price` and `discount` reach `format_product_data` as numbers (the
  function applies Python `int()` to them, so we embed them as `Int`);
* filters `.eq(f, v)` / `.gt(f, 0)` become `List.filter`, `update`
  becomes a `List.map` touching the matched rows, `insert` appends,
  `delete` becomes a `filter` keeping the non-matching rows, and
  `order(f, desc=True)` becomes a stable insertion sort by the field.
-/

namespace ShopApi

/-- Characters removed by Python's `str.strip()` (ASCII whitespace),
used in `search_products` for the empty-query short circuit. -/
def pySpace (c : Char) : Bool :=
  c == ' ' || c == '\t' || c == '\n' || c == '\r' || c == '\x0b' || c == '\x0c'

/-- Python `str.strip()`: drop leading and trailing whitespace. -/
def pyStrip (s : List Char) : List Char :=
  ((s.dropWhile pySpace).reverse.dropWhile pySpace).reverse

/-- Decimal digit as a character. -/
def digitChar (d : Nat) : Char := Char.ofNat (48 + d)

/-- Fuel-driven decimal printer (most significant digit first). -/
def natToDigits : Nat → Nat → List Char
  | 0, _ => []
  | fuel + 1, n =>
    if n < 10 then [digitChar n]
    else natToDigits fuel (n / 10) ++ [digitChar (n % 10)]

/-- Decimal representation of a natural number, as Python `str(n)`. -/
def natRepr (n : Nat) : List Char := natToDigits (n + 1) n

/-- Decimal representation of an integer, as Python `str(n)`. -/
def intRepr (n : Int) : List Char :=
  if n < 0 then '-' :: natRepr n.natAbs else natRepr n.toNat

/-- Insert a comma after every third digit of a reversed digit list,
mirroring Python's thousands-grouping format `{:,}` (`main.py` line 101). -/
def commaRev : Nat → List Char → List Char
  | _, [] => []
  | i, c :: cs =>
    if i % 3 == 2 && !cs.isEmpty then c :: ',' :: commaRev (i + 1) cs
    else c :: commaRev (i + 1) cs

/-- Python `f"{n:,}"` for a natural number. -/
def natComma (n : Nat) : List Char := (commaRev 0 (natRepr n).reverse).reverse

/-- Python `f"{n:,}"` for an integer. -/
def intComma (n : Int) : List Char :=
  if n < 0 then '-' :: natComma n.natAbs else natComma n.toNat

/-- Value of a decimal digit character. -/
def digitVal (c : Char) : Nat := c.toNat - 48

/-- Parse a nonempty all-digit character list as a natural number. -/
def parseDigits (ds : List Char) : Option Nat :=
  if !ds.isEmpty && ds.all Char.isDigit then
    some (ds.foldl (fun a c => a * 10 + digitVal c) 0)
  else none

/-- Python `int(s)` on a decimal string (optional leading minus);
`none` models the `ValueError` path. -/
def pyInt (s : String) : Option Int :=
  match s.toList with
  | '-' :: ds => (parseDigits ds).map (fun n => -(n : Int))
  | ds => (parseDigits ds).map (fun n => (n : Int))

/-- A row of the `products` table (`models.py` `ProductBase` plus the
generated `id` and `created_at`).  `likes` is string-encoded, exactly as
stored; `price` and `discount` are the numeric values `int()` yields. -/
structure ProductRow where
  id : Nat
  brand_name : String
  product_name : String
  image_url : String
  price : Int
  discount : Int
  likes : String
  reviews : String
  is_favorite : Bool
  category : String
  created_at : Nat
  deriving DecidableEq

/-- A product row after `format_product_data` (`main.py` lines 86-116):
price/discount become display strings and `api_urls` is added. -/
structure FormattedProduct where
  id : Nat
  brand_name : String
  product_name : String
  image_url : String
  price : String
  discount : String
  likes : String
  reviews : String
  is_favorite : Bool
  category : String
  created_at : Nat
  api_urls : List (String × String)
  deriving DecidableEq

/-- `format_product_data` on one row: thousands-grouped price with the
currency suffix, percent-suffixed discount, and the five action URLs. -/
def formatProduct (p : ProductRow) : FormattedProduct :=
  { id := p.id
    brand_name := p.brand_name
    product_name := p.product_name
    image_url := p.image_url
    price := String.mk (intComma p.price) ++ "원"
    discount := String.mk (intRepr p.discount) ++ "%"
    likes := p.likes
    reviews := p.reviews
    is_favorite := p.is_favorite
    category := p.category
    created_at := p.created_at
    api_urls :=
      [("get", "http://localhost:8001/api/get/" ++ String.mk (natRepr p.id)),
       ("favorite", "http://localhost:8001/api/favorite/" ++ String.mk (natRepr p.id)),
       ("cart_add", "http://localhost:8001/api/cart-add/" ++ String.mk (natRepr p.id)),
       ("cart_remove", "http://localhost:8001/api/cart-remove/" ++ String.mk (natRepr p.id)),
       ("cart_update", "http://localhost:8001/api/cart-update/" ++ String.mk (natRepr p.id))] }

/-- `format_product_data` over a list of rows. -/
def format_product_data (ps : List ProductRow) : List FormattedProduct :=
  ps.map formatProduct

/-- Response envelope header (`main.py` lines 129-134); the date string
is `datetime.now().isoformat() + "Z"`, passed in here. -/
structure ResponseHeader where
  content_type : String
  server : String
  date : String
  deriving DecidableEq

/-- Response envelope body (`main.py` lines 135-139). -/
structure ResponseBody (α : Type) where
  code : String
  message : String
  data : α

/-- The full envelope produced by `create_standard_response`. -/
structure StandardResponse (α : Type) where
  header : ResponseHeader
  body : ResponseBody α

/-- `create_standard_response` (`main.py` lines 118-147), with the
current wall-clock ISO string supplied as `now`. -/
def create_standard_response (now : String) (data : α) (message : String) :
    StandardResponse α :=
  { header :=
      { content_type := "application/json; charset=utf-8"
        server := "FastAPI"
        date := now ++ "Z" }
    body := { code := "200", message := message, data := data } }

/-- The favorite branch of `unified_product_api` (`main.py` lines
318-335): read the first row with the given id, parse its likes string
(Python `int(x or "0")`), flip the flag, adjust likes by plus or minus
one clamped at zero, and write both back to every row with that id.
`none` models the 404 (no row) and the `int()` failure paths. -/
def favoriteAction (ps : List ProductRow) (pid : Nat) : Option (List ProductRow) :=
  match ps.filter (fun q => q.id == pid) with
  | [] => none
  | p :: _ =>
    match pyInt (if p.likes = "" then "0" else p.likes) with
    | none => none
    | some n =>
      let newFavorite := !p.is_favorite
      let newLikes : Int := max 0 (n + (if newFavorite then 1 else -1))
      some (ps.map (fun q =>
        if q.id == pid then
          { q with is_favorite := newFavorite,
                   likes := String.mk (natRepr newLikes.toNat) }
        else q))

/-- A row of the `cart_items` table (`models.py` `CartItemBase` plus the
generated `created_at`). -/
structure CartRow where
  user_id : Int
  product_id : Int
  quantity : Int
  selected_options : String
  created_at : Nat
  deriving DecidableEq

/-- The `.eq("user_id", u).eq("product_id", p)` filter pair. -/
def cartMatch (u p : Int) (r : CartRow) : Bool :=
  r.user_id == u && r.product_id == p

/-- The row inserted by the cart-add branch (`main.py` lines 346-351);
`ts` is the store-generated `created_at`. -/
def mkCartRow (u p q : Int) (ts : Nat) : CartRow :=
  { user_id := u, product_id := p, quantity := q, selected_options := ""
    created_at := ts }

/-- The cart-add branch of `unified_product_api` (`main.py` lines
337-352): if a row for (user, product) exists, set every matching row's
quantity to first-match quantity plus the requested amount, else insert
a fresh row with the requested quantity. -/
def cartAdd (cart : List CartRow) (u p q : Int) (ts : Nat) : List CartRow :=
  match cart.filter (cartMatch u p) with
  | [] => cart ++ [mkCartRow u p q ts]
  | r :: _ =>
    cart.map (fun s =>
      if cartMatch u p s then { s with quantity := r.quantity + q } else s)

/-- The cart-remove branch (`main.py` lines 354-357): unconditionally
delete the rows for (user, product). -/
def cartRemove (cart : List CartRow) (u p : Int) : List CartRow :=
  cart.filter (fun r => !cartMatch u p r)

/-- The cart-update branch (`main.py` lines 359-362): set the quantity
of every row matching (user, product); no row is created when absent. -/
def cartUpdate (cart : List CartRow) (u p q : Int) : List CartRow :=
  cart.map (fun s => if cartMatch u p s then { s with quantity := q } else s)

/-- The consolidated-response cart lookup (`main.py` line 379):
`.eq("user_id", u).eq("product_id", p).gt("quantity", 0)`. -/
def cartStateQuery (cart : List CartRow) (u p : Int) : List CartRow :=
  cart.filter (fun r => cartMatch u p r && decide (0 < r.quantity))

/-- The `(in_cart, cart_quantity)` pair of the consolidated response
(`main.py` lines 380-381). -/
def cartState (cart : List CartRow) (u p : Int) : Bool × Int :=
  let rows := cartStateQuery cart u p
  (!rows.isEmpty, (rows.head?.map (fun r => r.quantity)).getD 0)

/-- `order("created_at", desc=True)` on cart rows, as a stable sort. -/
def sortCartByCreatedDesc (l : List CartRow) : List CartRow :=
  List.insertionSort (fun a b => b.created_at ≤ a.created_at) l

/-- The storage query of `get_cart_items` (`main.py` lines 489-512):
quantity-positive rows, a user filter only when `user_id` is truthy
(Python `if user_id:` is false for both `None` and `0`), newest first. -/
def get_cart_items (user_id : Option Int) (cart : List CartRow) : List CartRow :=
  let base := cart.filter (fun r => decide (0 < r.quantity))
  let rows :=
    match user_id with
    | none => base
    | some u => if u == 0 then base else base.filter (fun r => r.user_id == u)
  sortCartByCreatedDesc rows

/-- Whether `pat` occurs as a contiguous run inside the second list. -/
def hasRun (pat : List Char) : List Char → Bool
  | [] => pat.isEmpty
  | c :: cs => pat.isPrefixOf (c :: cs) || hasRun pat cs

/-- Case-insensitive substring test, the embedding of the store's
`ilike.%q%` pattern match (`main.py` lines 647-649). -/
def ilikeContains (pat : List Char) (s : String) : Bool :=
  hasRun (pat.map Char.toLower) (s.toList.map Char.toLower)

/-- Outcome of `search_products`: whether the storage backend was
queried at all, and the rows returned. -/
structure SearchOutcome where
  queried : Bool
  results : List FormattedProduct
  deriving DecidableEq

/-- `order("created_at", desc=True)` on product rows, as a stable sort. -/
def sortProductsByCreatedDesc (l : List ProductRow) : List ProductRow :=
  List.insertionSort (fun a b : ProductRow => b.created_at ≤ a.created_at) l

/-- `search_products` (`main.py` lines 627-659): strip the query; when
nothing remains return an empty list without touching storage, else
match the query case-insensitively against product or brand name. -/
def search_products (q : String) (ps : List ProductRow) : SearchOutcome :=
  let qs := pyStrip q.toList
  if qs.isEmpty then { queried := false, results := [] }
  else
    { queried := true
      results := format_product_data (sortProductsByCreatedDesc (ps.filter (fun p =>
        ilikeContains qs p.product_name || ilikeContains qs p.brand_name))) }

/-- Lexicographic order on character lists by codepoint, the text
comparison the external store applies to a string column. -/
def lexLe : List Char → List Char → Bool
  | [], _ => true
  | _ :: _, [] => false
  | a :: as, b :: bs =>
    if a.toNat = b.toNat then lexLe as bs else decide (a.toNat < b.toNat)

/-- The store's descending order on the string-typed `likes` column:
`likesDesc a b` holds when `a` sorts no later than `b`, i.e. `b.likes`
is lexicographically at most `a.likes`. -/
def likesDesc (a b : ProductRow) : Prop :=
  lexLe b.likes.data a.likes.data = true

instance : DecidableRel likesDesc :=
  fun a b => instDecidableEqBool (lexLe b.likes.data a.likes.data) true

/-- `order("likes", desc=True)` over the string-typed column. -/
def sortByLikesDesc (l : List ProductRow) : List ProductRow :=
  List.insertionSort likesDesc l

/-- The rows `get_products_ranking` selects: sort on the raw `likes`
strings descending, keep the first 20 (`main.py` line 677). -/
def rankingRows (ps : List ProductRow) : List ProductRow :=
  (sortByLikesDesc ps).take 20

/-- `get_products_ranking` (`main.py` lines 665-687). -/
def get_products_ranking (ps : List ProductRow) : List FormattedProduct :=
  format_product_data (rankingRows ps)

/-- Numeric reading of a formatted product's stored likes string (the
like count the claim speaks about); unparsable strings read as 0. -/
def likesNum (p : FormattedProduct) : Nat :=
  (parseDigits p.likes.toList).getD 0

/-- A concrete product row used to instantiate the favorite-toggle
theorem: not yet a favorite, three stored likes. -/
def pW1 : ProductRow :=
  { id := 1, brand_name := "BrandA", product_name := "Shoe", image_url := "img",
    price := 1000, discount := 5, likes := "3", reviews := "0", is_favorite := false,
    category := "shoes", created_at := 0 }

/-- A concrete product row with numeric price 15000 and discount 10,
used to instantiate the formatting theorem. -/
def pW7 : ProductRow :=
  { id := 42, brand_name := "BrandB", product_name := "Coat", image_url := "img",
    price := 15000, discount := 10, likes := "7", reviews := "1", is_favorite := false,
    category := "coats", created_at := 0 }

/-- A product with ten stored likes (string "10"); below `pCexB` in the
store's lexicographic likes order even though 10 > 2 numerically. -/
def pCexA : ProductRow :=
  { id := 1, brand_name := "A", product_name := "a", image_url := "img",
    price := 100, discount := 0, likes := "10", reviews := "0", is_favorite := false,
    category := "c", created_at := 0 }

/-- A product with two stored likes (string "2"). -/
def pCexB : ProductRow :=
  { id := 2, brand_name := "B", product_name := "b", image_url := "img",
    price := 100, discount := 0, likes := "2", reviews := "0", is_favorite := false,
    category := "c", created_at := 0 }

/-! ## Helper lemmas -/

/-- `lexLe` is total. -/
theorem lexLe_total : ∀ a b : List Char, lexLe a b = true ∨ lexLe b a = true := by
  intro a
  induction a with
  | nil => intro b; left; rfl
  | cons x xs ih =>
    intro b
    cases b with
    | nil => right; rfl
    | cons y ys =>
      by_cases h : x.toNat = y.toNat
      · rcases ih ys with hl | hr
        · left; simp [lexLe, h, hl]
        · right; simp [lexLe, h.symm, hr]
      · rcases Nat.lt_or_ge x.toNat y.toNat with hlt | hge
        · left; simp [lexLe, h, hlt]
        · have h' : y.toNat ≠ x.toNat := fun e => h e.symm
          have hlt : y.toNat < x.toNat := lt_of_le_of_ne hge h'
          right; simp [lexLe, h', hlt]

/-- `lexLe` is transitive. -/
theorem lexLe_trans :
    ∀ a b c : List Char, lexLe a b = true → lexLe b c = true → lexLe a c = true := by
  intro a
  induction a with
  | nil => intro b c _ _; rfl
  | cons x xs ih =>
    intro b c hab hbc
    cases b with
    | nil => simp [lexLe] at hab
    | cons y ys =>
      cases c with
      | nil => simp [lexLe] at hbc
      | cons z zs =>
        simp only [lexLe] at hab hbc ⊢
        by_cases hxy : x.toNat = y.toNat <;> by_cases hyz : y.toNat = z.toNat
        · rw [if_pos hxy] at hab
          rw [if_pos hyz] at hbc
          rw [if_pos (hxy.trans hyz)]
          exact ih ys zs hab hbc
        · rw [if_pos hxy] at hab
          rw [if_neg hyz] at hbc
          replace hbc := of_decide_eq_true hbc
          have hlt : x.toNat < z.toNat := hxy ▸ hbc
          rw [if_neg (Nat.ne_of_lt hlt)]
          exact decide_eq_true hlt
        · rw [if_neg hxy] at hab
          rw [if_pos hyz] at hbc
          replace hab := of_decide_eq_true hab
          have hlt : x.toNat < z.toNat := hyz ▸ hab
          rw [if_neg (Nat.ne_of_lt hlt)]
          exact decide_eq_true hlt
        · rw [if_neg hxy] at hab
          rw [if_neg hyz] at hbc
          replace hab := of_decide_eq_true hab
          replace hbc := of_decide_eq_true hbc
          have hlt : x.toNat < z.toNat := Nat.lt_trans hab hbc
          rw [if_neg (Nat.ne_of_lt hlt)]
          exact decide_eq_true hlt

/-- Filtering for a (user, product) pair commutes with the quantity
update the store performs on exactly that pair. -/
theorem cart_filter_map_set (cart : List CartRow) (u p newq : Int) :
    (cart.map (fun s =>
        if cartMatch u p s then { s with quantity := newq } else s)).filter (cartMatch u p)
      = (cart.filter (cartMatch u p)).map (fun s => { s with quantity := newq }) := by
  induction cart with
  | nil => rfl
  | cons a as ih =>
    by_cases h : cartMatch u p a = true
    · have h2 : cartMatch u p { a with quantity := newq } = true := h
      simp only [List.map_cons, if_pos h, List.filter_cons, h2, if_pos, ih]
    · have h' : cartMatch u p a = false := by
        cases hb : cartMatch u p a with
        | false => rfl
        | true => exact absurd hb h
      simp only [List.map_cons, h', if_neg h, List.filter_cons, Bool.false_eq_true,
        if_false, ih]

/-- Filtering for a product id commutes with the favorite/likes update
the store performs on exactly that id. -/
theorem product_filter_map_set (ps : List ProductRow) (pid : Nat) (fav : Bool) (lk : String) :
    (ps.map (fun q =>
        if q.id == pid then { q with is_favorite := fav, likes := lk } else q)).filter
        (fun q => q.id == pid)
      = (ps.filter (fun q => q.id == pid)).map
          (fun q => { q with is_favorite := fav, likes := lk }) := by
  induction ps with
  | nil => rfl
  | cons a as ih =>
    by_cases h : (a.id == pid) = true
    · have h2 : (({ a with is_favorite := fav, likes := lk } : ProductRow).id == pid) = true := h
      simp only [List.map_cons, if_pos h, List.filter_cons, h2, if_pos, ih]
    · have h' : (a.id == pid) = false := by
        cases hb : (a.id == pid) with
        | false => rfl
        | true => exact absurd hb h
      simp only [List.map_cons, h', if_neg h, List.filter_cons, Bool.false_eq_true,
        if_false, ih]

/-! ## Claims -/

/-- C8: `create_standard_response` puts the constant string "200" in the
body-level code field, whatever the payload, message, or timestamp. -/
theorem standard_response_code_always_200 {α : Type} (now : String) (data : α)
    (message : String) :
    (create_standard_response now data message).body.code = "200" := rfl

/-- C5: cart-remove is idempotent: a second removal of the same
(user, product) pair changes nothing, and after removal no row for the
pair remains. -/
theorem cart_remove_idempotent (cart : List CartRow) (u p : Int) :
    cartRemove (cartRemove cart u p) u p = cartRemove cart u p
    ∧ (cartRemove cart u p).filter (cartMatch u p) = [] := by
  constructor
  · simp [cartRemove, List.filter_filter]
  · simp [cartRemove, List.filter_filter]

/-- C4: cart-update on a (user, product) pair with no cart row leaves
the cart storage unchanged; the operation is total (no error path). -/
theorem cart_update_absent_noop (cart : List CartRow) (u p q : Int)
    (h : cart.filter (cartMatch u p) = []) :
    cartUpdate cart u p q = cart := by
  have hall : ∀ r ∈ cart, ¬ cartMatch u p r = true := by
    simpa [List.filter_eq_nil_iff] using h
  unfold cartUpdate
  calc cart.map (fun s => if cartMatch u p s then { s with quantity := q } else s)
      = cart.map id := by
        apply List.map_congr_left
        intro a ha
        simp [if_neg (hall a ha)]
    _ = cart := List.map_id cart

/-- C4 witness: updating the quantity of the absent pair (3, 3) in a
one-row cart leaves the cart unchanged. -/
theorem cart_update_absent_noop_witness :
    cartUpdate [mkCartRow 1 2 5 0] 3 3 9 = [mkCartRow 1 2 5 0] :=
  cart_update_absent_noop [mkCartRow 1 2 5 0] 3 3 9 (by decide)

/-- C1: a favorite toggle on an existing product negates the stored
flag exactly once and stores `max 0 (old likes + (+1 if the new flag is
true, else -1))` as the like count; the stored count is the decimal
string of a natural number, hence never negative. -/
theorem favorite_toggle_ok (ps : List ProductRow) (pid : Nat) (p : ProductRow) (n : Int)
    (hrow : ps.filter (fun q => q.id == pid) = [p])
    (hn : pyInt (if p.likes = "" then "0" else p.likes) = some n) :
    (favoriteAction ps pid).map (fun res => res.filter (fun q => q.id == pid))
      = some [{ p with
                is_favorite := !p.is_favorite,
                likes := String.mk (natRepr
                  (max 0 (n + (if !p.is_favorite then 1 else -1))).toNat) }]
    ∧ ((max 0 (n + (if !p.is_favorite then 1 else -1))).toNat : Int)
        = max 0 (n + (if !p.is_favorite then 1 else -1))
    ∧ (0 : Int) ≤ max 0 (n + (if !p.is_favorite then 1 else -1)) := by
  refine ⟨?_, Int.toNat_of_nonneg (le_max_left 0 _), le_max_left 0 _⟩
  simp only [favoriteAction, hrow, hn, Option.map_some']
  rw [product_filter_map_set, hrow]
  rfl

/-- C1 witness: toggling product 1 in a one-product store with likes
"3" and flag false yields flag true and four likes. -/
theorem favorite_toggle_ok_witness :
    (favoriteAction [pW1] 1).map (fun res => res.filter (fun q => q.id == 1))
      = some [{ pW1 with
                is_favorite := !pW1.is_favorite,
                likes := String.mk (natRepr
                  (max 0 ((3 : Int) + (if !pW1.is_favorite then 1 else -1))).toNat) }] :=
  (favorite_toggle_ok [pW1] 1 pW1 3 (by decide) (by decide)).1

/-- C2: cart-add sets every row of an existing (user, product) pair to
its first row's quantity plus the requested amount, inserts a fresh row
with exactly the requested quantity when the pair is absent, and two
adds of 2 then 3 on an absent pair leave a single row of quantity 5. -/
theorem cart_add_ok (cart : List CartRow) (u p q : Int) (ts : Nat) :
    (cart.filter (cartMatch u p) = [] →
      cartAdd cart u p q ts = cart ++ [mkCartRow u p q ts])
    ∧ (∀ r rs, cart.filter (cartMatch u p) = r :: rs →
        (cartAdd cart u p q ts).filter (cartMatch u p)
          = (r :: rs).map (fun s => { s with quantity := r.quantity + q }))
    ∧ ((cartAdd (cartAdd [] 7 3 2 0) 7 3 3 1).filter (cartMatch 7 3)).map
        (fun r => r.quantity) = [5] := by
  refine ⟨?_, ?_, ?_⟩
  · intro h
    unfold cartAdd
    rw [h]
  · intro r rs h
    unfold cartAdd
    rw [h]
    show (cart.map (fun s =>
        if cartMatch u p s then { s with quantity := r.quantity + q } else s)).filter
        (cartMatch u p) = _
    rw [cart_filter_map_set, h]
  · decide

/-- C2 witness: an add of quantity 2 on the absent pair (7, 3) inserts
a row of quantity 2; a second add of 3 turns that row into quantity 5. -/
theorem cart_add_ok_witness :
    cartAdd [] 7 3 2 0 = [] ++ [mkCartRow 7 3 2 0]
    ∧ (cartAdd [mkCartRow 7 3 2 0] 7 3 3 1).filter (cartMatch 7 3)
        = [mkCartRow 7 3 2 0].map
            (fun s => { s with quantity := (mkCartRow 7 3 2 0).quantity + 3 }) :=
  ⟨(cart_add_ok [] 7 3 2 0).1 rfl,
   (cart_add_ok [mkCartRow 7 3 2 0] 7 3 3 1).2.1 (mkCartRow 7 3 2 0) [] (by decide)⟩

/-- C9: in the consolidated response the in_cart flag is true exactly
when the reported cart_quantity is positive, and a quantity-zero cart
row leaves both fields exactly as if the row were absent. -/
theorem in_cart_iff_quantity_pos (cart : List CartRow) (u p : Int) :
    ((cartState cart u p).1 = true ↔ 0 < (cartState cart u p).2)
    ∧ (∀ r : CartRow, r.user_id = u → r.product_id = p → r.quantity = 0 →
        cartState (r :: cart) u p = cartState cart u p) := by
  constructor
  · cases hq : cartStateQuery cart u p with
    | nil => simp [cartState, hq]
    | cons r rs =>
      have hr : r ∈ cartStateQuery cart u p := hq ▸ List.mem_cons_self r rs
      have hmem := (List.mem_filter.1 hr).2
      have hpos : 0 < r.quantity :=
        of_decide_eq_true ((Bool.and_eq_true _ _).mp hmem).2
      simp [cartState, hq, hpos]
  · intro r h1 h2 h3
    have hfalse : (cartMatch u p r && decide (0 < r.quantity)) = false := by
      simp [h3]
    simp [cartState, cartStateQuery, List.filter_cons, hfalse]

/-- C9 witness: a cart row for the queried pair with quantity zero
yields the same (in_cart, cart_quantity) pair as the empty cart. -/
theorem in_cart_iff_quantity_pos_witness :
    cartState [{ user_id := 1, product_id := 2, quantity := 0, selected_options := "",
                 created_at := 0 }] 1 2 = cartState [] 1 2 :=
  (in_cart_iff_quantity_pos [] 1 2).2
    { user_id := 1, product_id := 2, quantity := 0, selected_options := "", created_at := 0 }
    rfl rfl rfl

/-- C10: GET /cart-items with user_id = 0 applies no user filter at
all: the result equals the no-user_id call, namely every user's
quantity-positive cart rows. -/
theorem cart_items_user_zero (cart : List CartRow) :
    get_cart_items (some 0) cart = get_cart_items none cart
    ∧ (∀ r : CartRow, r ∈ get_cart_items (some 0) cart ↔ r ∈ cart ∧ 0 < r.quantity) := by
  constructor
  · rfl
  · intro r
    simp [get_cart_items, sortCartByCreatedDesc, List.mem_insertionSort, List.mem_filter]

/-- C6: a query consisting only of whitespace (the empty string
included) makes products-search return an empty result list without
querying the storage backend. -/
theorem search_whitespace_no_query (q : String) (ps : List ProductRow)
    (h : q.toList.all pySpace = true) :
    search_products q ps = { queried := false, results := [] } := by
  have hall : ∀ c ∈ q.data, pySpace c = true := List.all_eq_true.mp h
  have h1 : q.data.dropWhile pySpace = [] := by
    rw [List.dropWhile_eq_nil_iff]
    exact fun c hc => hall c hc
  have hstrip : pyStrip q.data = [] := by
    unfold pyStrip
    rw [h1]
    rfl
  unfold search_products
  rw [show pyStrip q.toList = [] from hstrip]
  rfl

/-- C6 witness: searching for a single space over a one-product store
yields an empty result and no storage query. -/
theorem search_whitespace_no_query_witness :
    search_products " " [pW1] = { queried := false, results := [] } :=
  search_whitespace_no_query " " [pW1] (by decide)

/-- C7: formatting a row whose numeric price is 15000 and numeric
discount is 10 yields the display strings "15,000원" and "10%", and
attaches the api_urls map with exactly the five action keys, each URL
embedding the row's id. -/
theorem format_product_fields (p : ProductRow) (hp : p.price = 15000)
    (hd : p.discount = 10) :
    (formatProduct p).price = "15,000원"
    ∧ (formatProduct p).discount = "10%"
    ∧ (formatProduct p).api_urls =
        [("get", "http://localhost:8001/api/get/" ++ String.mk (natRepr p.id)),
         ("favorite", "http://localhost:8001/api/favorite/" ++ String.mk (natRepr p.id)),
         ("cart_add", "http://localhost:8001/api/cart-add/" ++ String.mk (natRepr p.id)),
         ("cart_remove", "http://localhost:8001/api/cart-remove/" ++ String.mk (natRepr p.id)),
         ("cart_update", "http://localhost:8001/api/cart-update/" ++ String.mk (natRepr p.id))]
    ∧ (formatProduct p).api_urls.map Prod.fst
        = ["get", "favorite", "cart_add", "cart_remove", "cart_update"] := by
  refine ⟨?_, ?_, rfl, rfl⟩
  · show String.mk (intComma p.price) ++ "원" = "15,000원"
    rw [hp]
    decide
  · show String.mk (intRepr p.discount) ++ "%" = "10%"
    rw [hd]
    decide

/-- C7 witness: the formatting theorem evaluated on the concrete row
with id 42, price 15000, discount 10. -/
theorem format_product_fields_witness :
    (formatProduct pW7).price = "15,000원" ∧ (formatProduct pW7).discount = "10%" :=
  ⟨(format_product_fields pW7 rfl rfl).1, (format_product_fields pW7 rfl rfl).2.1⟩

/-- C3 counterexample: in a store holding products with stored likes
strings "10" and "2", products-ranking returns them ordered 2 then 10
(the string sort ranks "2" above "10"), so the returned list is not in
decreasing numeric like-count order, contrary to the claim. -/
theorem products_ranking_not_numeric :
    ¬ ((get_products_ranking [pCexA, pCexB]).Pairwise
        (fun a b => likesNum b ≤ likesNum a)) := by
  decide

/-- C3 amended: products-ranking returns the first 20 products under
the store's lexicographic descending order on the string-encoded likes
column: the selected rows are sorted by that order, together with the
excluded rows they are a permutation of the store, at most 20 rows are
selected, and every excluded row's likes string is lexicographically at
most every selected row's. -/
theorem products_ranking_lex (ps : List ProductRow) :
    get_products_ranking ps = format_product_data (rankingRows ps)
    ∧ (rankingRows ps).Sorted likesDesc
    ∧ List.Perm (rankingRows ps ++ (sortByLikesDesc ps).drop 20) ps
    ∧ (rankingRows ps).length = min 20 ps.length
    ∧ ((sortByLikesDesc ps).drop 20).all
        (fun a => (rankingRows ps).all (fun b => lexLe a.likes.data b.likes.data)) = true := by
  haveI : IsTotal ProductRow likesDesc :=
    ⟨fun a b => lexLe_total b.likes.data a.likes.data⟩
  haveI : IsTrans ProductRow likesDesc :=
    ⟨fun a b c hab hbc => lexLe_trans c.likes.data b.likes.data a.likes.data hbc hab⟩
  refine ⟨rfl, ?_, ?_, ?_, ?_⟩
  · exact List.Pairwise.sublist (List.take_sublist 20 _)
      (List.sorted_insertionSort likesDesc ps)
  · unfold rankingRows
    rw [List.take_append_drop]
    exact List.perm_insertionSort likesDesc ps
  · simp [rankingRows, sortByLikesDesc, List.length_take, List.length_insertionSort]
  · rw [List.all_eq_true]
    intro a ha
    rw [List.all_eq_true]
    intro b hb
    exact (List.sorted_insertionSort likesDesc ps).rel_of_mem_take_of_mem_drop hb ha

end ShopApi
